import Mathlib

/-!
Shallow embedding of the session lifecycle manager and resilient request
pipeline of `src/kibana_mcp_server/server.py`, together with the façade
query-building code the verified claims refer to.

Machine-level conventions: timestamps are natural numbers of seconds
(`datetime.now()` reads become an explicit `now : Nat` argument), the
23-hour TTL is `23 * 3600` seconds, and backend I/O is modelled by an
oracle assigning a response to every login call and every proxied call.
-/

namespace Kibana

/-- Tests whether the first list is an initial run of the second
(`sub` occurs at the very start of `s`). -/
def leadSeg : List Char → List Char → Bool
  | [], _ => true
  | _ :: _, [] => false
  | a :: as, b :: bs => if a = b then leadSeg as bs else false

/-- First index `≥ i` (counting from the given accumulator) at which `sub`
occurs in the list, if any. -/
def findIdx (sub : List Char) : List Char → Nat → Option Nat
  | [], i => if leadSeg sub [] then some i else none
  | c :: rest, i =>
    if leadSeg sub (c :: rest) then some i else findIdx sub rest (i + 1)

/-- Python `s.find(sub, start)`: the least absolute index `≥ start` where
`sub` occurs in `s`, or `-1` when it does not occur there. -/
def pyFind (s sub : List Char) (start : Nat) : Int :=
  match findIdx sub (s.drop start) 0 with
  | some j => Int.ofNat (start + j)
  | none => -1

/-- Python substring containment `sub in s`. -/
def containsSub (s sub : List Char) : Bool := (findIdx sub s 0).isSome

/-- Python slice `s[a:b]` where `b` may be negative (counted from the end),
with Python's clamping behaviour. -/
def pySlice (s : List Char) (a : Nat) (b : Int) : List Char :=
  let n : Int := Int.ofNat s.length
  let b2 : Int := if b < 0 then n + b else b
  (s.take b2.toNat).drop a

/-- The cookie key searched for by `KibanaSession.login`. -/
def SID_KEY : List Char := "sid=".toList

/-- Embedding of the token extraction in `KibanaSession.login`
(server.py lines 94-96):
`sid_start = set_cookie.find("sid=") + 4`,
`sid_end = set_cookie.find(";", sid_start)`,
`self.sid_cookie = set_cookie[sid_start:sid_end]`.
Note that when no `;` occurs after the key, `find` returns `-1` and the
Python slice `[sid_start:-1]` stops one character short of the end. -/
def extract_sid (set_cookie : String) : String :=
  let cs := set_cookie.toList
  let sid_start : Nat := (pyFind cs SID_KEY 0 + 4).toNat
  let sid_end : Int := pyFind cs [';'] sid_start
  String.mk (pySlice cs sid_start sid_end)

/-- One backend HTTP response: status code, the value of the cookie-setting
response header (empty when the header is absent, matching
`response.headers.get("set-cookie", "")`), and the body text. -/
structure HttpResponse where
  status : Nat
  setCookie : String
  body : String

deriving instance DecidableEq for HttpResponse

/-- Mutable state of a `KibanaSession` object: the bound credentials, the
cached `sid` cookie and the creation time of the current session
(both `none` before any successful login, as in `__init__`). -/
structure Session where
  username : String
  password : String
  sid_cookie : Option String
  session_created_at : Option Nat

deriving instance DecidableEq for Session

/-- Error taxonomy of the embedded code: login failures (missing `sid`
cookie on a 200 response, or a non-200 login status), proxied-request
failures carrying status and body, and the uninitialized-session error
raised by `get_session`. -/
inductive KibanaError where
  | authNoSid : KibanaError
  | authHttp : Nat → String → KibanaError
  | requestError : Nat → String → KibanaError
  | notConfigured : KibanaError

deriving instance DecidableEq for KibanaError

/-- Whether an error comes from the login handshake (the spec's
`AuthenticationError` class). -/
def isAuthError : KibanaError → Bool
  | KibanaError.authNoSid => true
  | KibanaError.authHttp _ _ => true
  | _ => false

/-- `SESSION_TIMEOUT = timedelta(hours=23)`, in seconds. -/
def SESSION_TIMEOUT : Nat := 23 * 3600

/-- Embedding of `KibanaSession._is_session_valid` (server.py lines 50-59):
falsy cookie (absent or empty) or absent creation time is invalid, and the
session is invalid once `now - session_created_at > SESSION_TIMEOUT`
(strictly greater, as in the source). -/
def is_session_valid (s : Session) (now : Nat) : Bool :=
  match s.sid_cookie, s.session_created_at with
  | some sid, some created =>
      if sid = "" then false
      else if SESSION_TIMEOUT < now - created then false
      else true
  | some _, none => false
  | none, _ => false

/-- Embedding of `KibanaSession.login` (server.py lines 61-104) as a state
step on the session, given the backend's response to the login POST.
On a 200 response whose cookie header contains `sid=` the extracted token
and `created_at = now` are stored; otherwise the state is unchanged and an
authentication error is reported (the source raises). -/
def loginStep (s : Session) (resp : HttpResponse) (now : Nat) :
    Session × Option KibanaError :=
  if resp.status = 200 then
    if containsSub resp.setCookie.toList SID_KEY then
      ({ s with sid_cookie := some (extract_sid resp.setCookie),
                session_created_at := some now }, none)
    else (s, some KibanaError.authNoSid)
  else (s, some (KibanaError.authHttp resp.status resp.body))

/-- Embedding of `KibanaSession.ensure_authenticated` (server.py lines
43-48): when the session is valid it returns at once with zero login
network calls; otherwise it performs one `login` call (recording the
credentials sent in its payload). -/
def ensure_authenticated (s : Session) (now : Nat) (resp : HttpResponse) :
    (Session × Option KibanaError) × Nat × List (String × String) :=
  if is_session_valid s now then ((s, none), 0, [])
  else (loginStep s resp now, 1, [(s.username, s.password)])

/-- Backend oracle: the response the backend would give to the `n`-th login
POST and to the `n`-th proxied POST made during one `request` call. -/
structure Backend where
  loginResp : Nat → HttpResponse
  proxyResp : Nat → HttpResponse

/-- Observable outcome of one `KibanaSession.request` call: the final
session state, the result (response body or error), the number of login
network calls made, the credentials sent in each login payload, and the
`sid` cookie attached to each proxied POST, in order. -/
structure RequestOutcome where
  finalSession : Session
  result : Except KibanaError String
  loginCalls : Nat
  loginCreds : List (String × String)
  proxiedCookies : List (Option String)

/-- Embedding of `KibanaSession.request` (server.py lines 106-151):
`ensure_authenticated`, then one proxied POST carrying the stored cookie;
on a 401 response, one `login` and one resend with the refreshed cookie;
a 200 (possibly retried) response yields its body, anything else raises
the request error with status and body. -/
def request (s : Session) (now : Nat) (b : Backend) : RequestOutcome :=
  match ensure_authenticated s now (b.loginResp 0) with
  | ((s1, some e), nl, lc) =>
      { finalSession := s1, result := Except.error e, loginCalls := nl,
        loginCreds := lc, proxiedCookies := [] }
  | ((s1, none), nl, lc) =>
      let r1 := b.proxyResp 0
      if r1.status = 401 then
        match loginStep s1 (b.loginResp nl) now with
        | (s2, some e) =>
            { finalSession := s2, result := Except.error e,
              loginCalls := nl + 1,
              loginCreds := lc ++ [(s1.username, s1.password)],
              proxiedCookies := [s1.sid_cookie] }
        | (s2, none) =>
            let r2 := b.proxyResp 1
            if r2.status = 200 then
              { finalSession := s2, result := Except.ok r2.body,
                loginCalls := nl + 1,
                loginCreds := lc ++ [(s1.username, s1.password)],
                proxiedCookies := [s1.sid_cookie, s2.sid_cookie] }
            else
              { finalSession := s2,
                result := Except.error
                  (KibanaError.requestError r2.status r2.body),
                loginCalls := nl + 1,
                loginCreds := lc ++ [(s1.username, s1.password)],
                proxiedCookies := [s1.sid_cookie, s2.sid_cookie] }
      else
        if r1.status = 200 then
          { finalSession := s1, result := Except.ok r1.body,
            loginCalls := nl, loginCreds := lc,
            proxiedCookies := [s1.sid_cookie] }
        else
          { finalSession := s1,
            result := Except.error
              (KibanaError.requestError r1.status r1.body),
            loginCalls := nl, loginCreds := lc,
            proxiedCookies := [s1.sid_cookie] }

/-- The module-level `_session: Optional[KibanaSession] = None` before any
tool call. -/
def initial_session_state : Option Session := none

/-- Embedding of `get_session` (server.py lines 162-166): raises the
not-configured error when no session object exists. -/
def get_session (st : Option Session) : Except KibanaError Session :=
  match st with
  | none => Except.error KibanaError.notConfigured
  | some s => Except.ok s

/-- Embedding of `KibanaSession.__init__` (server.py lines 36-41): a new
session object binds the credentials and has empty cookie state. -/
def mkKibanaSession (u p : String) : Session :=
  { username := u, password := p, sid_cookie := none,
    session_created_at := none }

/-- Embedding of `set_credentials` (server.py lines 169-174): the old
session object (if any) is discarded (its HTTP client is closed, a
resource effect not modelled here) and a brand-new `KibanaSession` with
empty cookie state is stored, whatever the previous state was. -/
def set_credentials (_st : Option Session) (u p : String) : Option Session :=
  some (mkKibanaSession u p)

/-- The configuration check the spec calls `isConfigured`: the
`_session is None` test performed by `get_session` (server.py line 164),
exposed as a boolean. It reads the stored state only. -/
def is_configured (st : Option Session) : Bool := st.isSome

/-- JSON values, as produced by `json.loads` and built by the query
handlers (objects keep insertion order, as Python dicts do). -/
inductive Json where
  | null : Json
  | jbool : Bool → Json
  | num : Int → Json
  | str : String → Json
  | arr : List Json → Json
  | obj : List (String × Json) → Json

/-- The base time-range query of `handle_aggregate_logs`
(server.py lines 454-456). -/
def base_time_query (time_range : String) : Json :=
  Json.obj [("range", Json.obj [("@timestamp",
    Json.obj [("gte", Json.str time_range)])])]

/-- Embedding of the filter handling of `handle_aggregate_logs`
(server.py lines 458-465), with `json.loads` abstracted as a `parse`
oracle returning `none` exactly on a JSON decode error. A falsy filter
argument (absent or empty string) is skipped; a parse failure is passed
over, keeping the base query. -/
def aggregate_base_query (time_range : String) (filterArg : Option String)
    (parse : String → Option Json) : Json :=
  let base := base_time_query time_range
  match filterArg with
  | none => base
  | some f =>
      if f = "" then base
      else
        match parse f with
        | some dsl =>
            Json.obj [("bool", Json.obj [("must", Json.arr [base, dsl])])]
        | none => base

/-- Embedding of the query construction of `handle_aggregate_logs`
(server.py lines 467-508): the full DSL body sent to the backend for each
aggregation type, or the error raised before any request is made. -/
def aggregate_query_dsl (agg_type time_range : String)
    (filterArg customAgg : Option String)
    (parse : String → Option Json) : Except String Json :=
  let bq := aggregate_base_query time_range filterArg parse
  if agg_type = "by_service" then
    Except.ok (Json.obj [("size", Json.num 0), ("query", bq),
      ("aggs", Json.obj [("services", Json.obj [("terms", Json.obj
        [("field", Json.str "kubernetes.container_name.keyword"),
         ("size", Json.num 20),
         ("order", Json.obj [("_count", Json.str "desc")])])])])])
  else if agg_type = "by_time" then
    Except.ok (Json.obj [("size", Json.num 0), ("query", bq),
      ("aggs", Json.obj [("logs_over_time", Json.obj
        [("date_histogram", Json.obj
          [("field", Json.str "@timestamp"),
           ("fixed_interval", Json.str "5m")])])])])
  else if agg_type = "custom" then
    match customAgg with
    | none => Except.error "custom aggregation needs custom_aggregation"
    | some ca =>
        if ca = "" then
          Except.error "custom aggregation needs custom_aggregation"
        else
          match parse ca with
          | some aggDsl =>
              Except.ok (Json.obj [("size", Json.num 0), ("query", bq),
                ("aggs", aggDsl)])
          | none => Except.error "custom_aggregation is not valid JSON"
  else Except.error "unknown aggregation type"

/-- First value bound to a key in a JSON object body (Python `d[k]`). -/
def lookupJ : List (String × Json) → String → Option Json
  | [], _ => none
  | (k, v) :: rest, key => if k = key then some v else lookupJ rest key

/-- Python `key in d` on a JSON object body. -/
def hasKey : List (String × Json) → String → Bool
  | [], _ => false
  | (k, _) :: rest, key => if k = key then true else hasKey rest key

/-- The `fields` schema default of `kibana_search_logs`. -/
def defaultFields : List String :=
  ["@timestamp", "kubernetes.container_name", "log"]

/-- Embedding of the post-parse fixup of `handle_search_logs`
(server.py lines 420-424): `if "size" not in query_dsl: query_dsl["size"]
= size` and likewise for `"_source"` with the fields list; a fresh dict
key is appended at the end, existing keys are left untouched. -/
def ensure_size_source (dsl : List (String × Json)) (size : Int)
    (fields : List String) : List (String × Json) :=
  let d1 := if hasKey dsl "size" then dsl
            else dsl ++ [("size", Json.num size)]
  if hasKey d1 "_source" then d1
  else d1 ++ [("_source", Json.arr (fields.map Json.str))]

/-- The body `handle_search_logs` submits when the query argument parsed
as a JSON object: the parsed DSL fixed up with the `size` and `fields`
arguments, which default to `20` and `defaultFields`
(server.py lines 391-424). -/
def search_logs_body (parsed : List (String × Json)) (sizeArg : Option Int)
    (fieldsArg : Option (List String)) : List (String × Json) :=
  ensure_size_source parsed (sizeArg.getD 20) (fieldsArg.getD defaultFields)

/-! ### Helper lemmas -/

/-- A session is valid exactly when it holds a non-empty cookie and a
creation time at most `SESSION_TIMEOUT` seconds in the past. -/
theorem is_session_valid_iff (s : Session) (now : Nat) :
    is_session_valid s now = true ↔
      ((∃ sid, s.sid_cookie = some sid ∧ sid ≠ "") ∧
       (∃ t, s.session_created_at = some t ∧
         now - t ≤ SESSION_TIMEOUT)) := by
  unfold is_session_valid
  rcases hc : s.sid_cookie with _ | sid <;>
    rcases ht : s.session_created_at with _ | t <;> simp [hc, ht]

/-- A session whose cookie state is completely empty is never valid. -/
theorem is_session_valid_fresh (u p : String) (now : Nat) :
    is_session_valid (mkKibanaSession u p) now = false := rfl

/-- Calling `request` on a session with no cookie state always performs at
least one login, and the first login payload carries that session's
credentials. -/
theorem request_fresh_session (u p : String) (now : Nat) (b : Backend) :
    1 ≤ (request (mkKibanaSession u p) now b).loginCalls ∧
    (request (mkKibanaSession u p) now b).loginCreds.head? =
      some (u, p) := by
  have hens : ensure_authenticated (mkKibanaSession u p) now
        (b.loginResp 0) =
      (loginStep (mkKibanaSession u p) (b.loginResp 0) now, 1,
        [(u, p)]) := rfl
  unfold request
  rw [hens]
  rcases hls : loginStep (mkKibanaSession u p) (b.loginResp 0) now
    with ⟨s2, e2⟩
  cases e2 with
  | some e => simp
  | none =>
      dsimp only
      by_cases h1 : (b.proxyResp 0).status = 401
      · rw [if_pos h1]
        rcases hls2 : loginStep s2 (b.loginResp 1) now with ⟨s3, e3⟩
        cases e3 with
        | some e => simp
        | none =>
            dsimp only
            by_cases h2 : (b.proxyResp 1).status = 200
            · rw [if_pos h2]; simp
            · rw [if_neg h2]; simp
      · rw [if_neg h1]
        by_cases h2 : (b.proxyResp 0).status = 200
        · rw [if_pos h2]; simp
        · rw [if_neg h2]; simp

/-! ### Claim theorems -/

/-- C2 counterexample input: a session created at time 0 with a non-empty
token, observed exactly `SESSION_TIMEOUT` seconds later. -/
def c2Session : Session :=
  { username := "u", password := "p", sid_cookie := some "tok",
    session_created_at := some 0 }

/-- A login response used only to instantiate oracles in counterexamples
and witnesses. -/
def c2Resp : HttpResponse := { status := 200, setCookie := "", body := "" }

/-- C2 (counterexample): at `now - created_at = SESSION_TIMEOUT` exactly,
the claimed condition `now - created_at ≥ TTL` holds for a present
session, yet `ensure_authenticated` performs zero login calls, because
the source tests `now - created_at > SESSION_TIMEOUT` strictly. -/
theorem ensure_authenticated_ttl_boundary_cex :
    (SESSION_TIMEOUT ≤ 82800 - 0 ∧ c2Session.sid_cookie = some "tok" ∧
     c2Session.session_created_at = some 0) ∧
    (ensure_authenticated c2Session 82800 c2Resp).2.1 = 0 :=
  ⟨⟨by decide, rfl, rfl⟩, rfl⟩

/-- C2 (amended): `ensure_authenticated` performs zero login network calls
iff the session holds a non-empty token whose age `now - created_at` is at
most the TTL (strictly greater than the TTL triggers a login — the
boundary is `>`, not `≥` as the claim stated). -/
theorem ensure_authenticated_login_iff (s : Session) (now : Nat)
    (r : HttpResponse) :
    (ensure_authenticated s now r).2.1 = 0 ↔
      ((∃ sid, s.sid_cookie = some sid ∧ sid ≠ "") ∧
       (∃ t, s.session_created_at = some t ∧
         now - t ≤ SESSION_TIMEOUT)) := by
  rw [← is_session_valid_iff s now]
  unfold ensure_authenticated
  cases hval : is_session_valid s now <;> simp [hval]

/-- C3: on the specified cookie header the extracted token is `abc123`,
but on a header with no `;` delimiter the code drops the final character
of the token (`find` returns `-1`, used as the slice end), instead of
extending to the end of the string. -/
theorem extract_sid_eval :
    extract_sid "sid=abc123; Path=/; HttpOnly" = "abc123" ∧
    extract_sid "sid=abc123" = "abc12" :=
  ⟨by decide, by decide⟩

/-- C4: `login` succeeds exactly when the response status is 200 and the
cookie header contains the `sid=` key; every failure is an authentication
error, and a failed login leaves the stored session unchanged. -/
theorem loginStep_failure_iff (s : Session) (r : HttpResponse) (now : Nat) :
    ((loginStep s r now).2 = none ↔
      (r.status = 200 ∧ containsSub r.setCookie.toList SID_KEY = true)) ∧
    (∀ e, (loginStep s r now).2 = some e → isAuthError e = true) ∧
    ((loginStep s r now).2 ≠ none → (loginStep s r now).1 = s) := by
  unfold loginStep
  by_cases h200 : r.status = 200
  · cases hsid : containsSub r.setCookie.toList SID_KEY <;>
      simp [h200, hsid, isAuthError]
  · simp [h200, isAuthError]

/-- C4 witness input: a rejected login attempt. -/
def c4Session : Session :=
  { username := "u", password := "p", sid_cookie := some "old",
    session_created_at := some 0 }

/-- A non-200 login response. -/
def c4Resp : HttpResponse :=
  { status := 403, setCookie := "", body := "denied" }

/-- C4 witness: a 403 login response yields an authentication error and
leaves the session unchanged. -/
theorem loginStep_failure_iff_witness :
    isAuthError (KibanaError.authHttp 403 "denied") = true ∧
    (loginStep c4Session c4Resp 7).1 = c4Session :=
  ⟨(loginStep_failure_iff c4Session c4Resp 7).2.1
      (KibanaError.authHttp 403 "denied") (by decide),
   (loginStep_failure_iff c4Session c4Resp 7).2.2 (by decide)⟩

/-- C6: with no credential ever set (`_session = None`) obtaining the
active session fails with the not-configured error, that error occurs in
exactly that state, and with a session present `get_session` returns it
untouched (no other error condition, no backend interaction). -/
theorem get_session_errors_iff_unset :
    get_session initial_session_state =
      Except.error KibanaError.notConfigured ∧
    (∀ st : Option Session,
      get_session st = Except.error KibanaError.notConfigured ↔
        st = none) ∧
    (∀ s : Session, get_session (some s) = Except.ok s) := by
  refine ⟨rfl, ?_, fun s => rfl⟩
  intro st
  cases st <;> simp [get_session]

/-- C7: the configuration check is `false` in the initial state and `true`
immediately after any `set_credentials` call; it is a pure read of the
stored state, with no backend oracle in its signature. -/
theorem is_configured_toggle :
    is_configured initial_session_state = false ∧
    ∀ (st : Option Session) (u p : String),
      is_configured (set_credentials st u p) = true :=
  ⟨rfl, fun _ _ _ => rfl⟩

/-- C1: every `request` issues at most two proxied calls, and when the
first proxied response is a 401 the executor performs exactly one extra
login, resends once with the refreshed cookie, and surfaces any
non-success second response as the request error with its status and
body — no further retries. -/
theorem request_one_shot_retry :
    (∀ (s : Session) (now : Nat) (b : Backend),
      (request s now b).proxiedCookies.length ≤ 2) ∧
    (∀ (s : Session) (now : Nat) (b : Backend) (s1 : Session) (nl : Nat)
        (lc : List (String × String)),
      ensure_authenticated s now (b.loginResp 0) = ((s1, none), nl, lc) →
      (b.proxyResp 0).status = 401 →
      ((request s now b).loginCalls = nl + 1 ∧
       ∀ s2 : Session, loginStep s1 (b.loginResp nl) now = (s2, none) →
         (request s now b).proxiedCookies =
           [s1.sid_cookie, s2.sid_cookie] ∧
         ((b.proxyResp 1).status ≠ 200 →
           (request s now b).result = Except.error
             (KibanaError.requestError (b.proxyResp 1).status
               (b.proxyResp 1).body)))) := by
  constructor
  · intro s now b
    unfold request
    split
    · simp
    · dsimp only
      split
      · split
        · simp
        · split <;> simp
      · split <;> simp
  · intro s now b s1 nl lc hens h401
    unfold request
    rw [hens]
    dsimp only
    rw [if_pos h401]
    rcases hls : loginStep s1 (b.loginResp nl) now with ⟨s2', e2⟩
    cases e2 with
    | some e =>
        refine ⟨rfl, ?_⟩
        intro s2 hls2
        simp at hls2
    | none =>
        refine ⟨?_, ?_⟩
        · dsimp only
          split <;> rfl
        · intro s2 hls2
          injection hls2 with hx _
          subst hx
          refine ⟨?_, ?_⟩
          · dsimp only
            split <;> rfl
          · intro hne
            dsimp only
            rw [if_neg hne]

/-- C1 witness input: a session whose cached token is still fresh. -/
def c1Session : Session :=
  { username := "u1", password := "p1", sid_cookie := some "tok1",
    session_created_at := some 0 }

/-- C1 witness backend: login always succeeds with a new token, every
proxied call is rejected with 401. -/
def c1Backend : Backend :=
  { loginResp := fun _ =>
      { status := 200, setCookie := "sid=tok2; Path=/", body := "" },
    proxyResp := fun _ =>
      { status := 401, setCookie := "", body := "denied" } }

/-- The session produced by the retry login in the C1 witness. -/
def c1NewSession : Session :=
  { username := "u1", password := "p1", sid_cookie := some "tok2",
    session_created_at := some 50 }

/-- C1 witness: against an always-401 backend, a `request` on a fresh
session performs exactly one login, sends exactly two proxied calls (the
second with the new token) and fails with the request error. -/
theorem request_one_shot_retry_witness :
    (request c1Session 50 c1Backend).loginCalls = 0 + 1 ∧
    (request c1Session 50 c1Backend).proxiedCookies =
      [c1Session.sid_cookie, c1NewSession.sid_cookie] ∧
    (request c1Session 50 c1Backend).result = Except.error
      (KibanaError.requestError (c1Backend.proxyResp 1).status
        (c1Backend.proxyResp 1).body) := by
  have h := request_one_shot_retry.2 c1Session 50 c1Backend c1Session 0 []
    (by decide) (by decide)
  have h2 := h.2 c1NewSession (by decide)
  exact ⟨h.1, h2.1, h2.2 (by decide)⟩

/-- C5: after `set_credentials` replaces an existing session, the stored
session carries the new credentials with no cached token, and the next
`request` performs a fresh login whose payload carries the new
credentials. -/
theorem set_credentials_swap (st : Option Session) (s1 : Session)
    (u2 p2 : String) (now : Nat) (b : Backend) (_hprev : st = some s1) :
    ∃ s2 : Session, set_credentials st u2 p2 = some s2 ∧
      s2.sid_cookie = none ∧ s2.username = u2 ∧ s2.password = p2 ∧
      1 ≤ (request s2 now b).loginCalls ∧
      (request s2 now b).loginCreds.head? = some (u2, p2) :=
  ⟨mkKibanaSession u2 p2, rfl, rfl, rfl, rfl,
    (request_fresh_session u2 p2 now b).1,
    (request_fresh_session u2 p2 now b).2⟩

/-- C5 witness input: a session established under the old credentials. -/
def c5OldSession : Session :=
  { username := "u1", password := "p1", sid_cookie := some "tok1",
    session_created_at := some 0 }

/-- C5 witness backend: logins succeed, proxied calls succeed. -/
def c5Backend : Backend :=
  { loginResp := fun _ =>
      { status := 200, setCookie := "sid=tok2; Path=/", body := "" },
    proxyResp := fun _ =>
      { status := 200, setCookie := "", body := "ok" } }

/-- C5 witness: swapping the credentials discards the old token and the
next request logs in as the new user. -/
theorem set_credentials_swap_witness :
    ∃ s2 : Session,
      set_credentials (some c5OldSession) "u2" "p2" = some s2 ∧
      s2.sid_cookie = none ∧ s2.username = "u2" ∧ s2.password = "p2" ∧
      1 ≤ (request s2 3 c5Backend).loginCalls ∧
      (request s2 3 c5Backend).loginCreds.head? = some ("u2", "p2") :=
  set_credentials_swap (some c5OldSession) c5OldSession "u2" "p2" 3
    c5Backend rfl

/-- C10: `set_credentials` discards the stored session unconditionally,
even when the new credentials equal the stored ones, so the next request
starts from empty cookie state and performs a fresh login. -/
theorem set_credentials_same_creds (s1 : Session) (u p : String)
    (now : Nat) (b : Backend) (_hu : s1.username = u)
    (_hp : s1.password = p) :
    set_credentials (some s1) u p = some (mkKibanaSession u p) ∧
    (mkKibanaSession u p).sid_cookie = none ∧
    1 ≤ (request (mkKibanaSession u p) now b).loginCalls :=
  ⟨rfl, rfl, (request_fresh_session u p now b).1⟩

/-- C10 witness input: an established session whose credentials equal the
ones being set again. -/
def c10Session : Session :=
  { username := "u1", password := "p1", sid_cookie := some "tok1",
    session_created_at := some 0 }

/-- C10 witness backend. -/
def c10Backend : Backend :=
  { loginResp := fun _ =>
      { status := 200, setCookie := "sid=tok2; Path=/", body := "" },
    proxyResp := fun _ =>
      { status := 200, setCookie := "", body := "ok" } }

/-- C10 witness: re-setting identical credentials still clears the cached
token and forces a login on the next request. -/
theorem set_credentials_same_creds_witness :
    set_credentials (some c10Session) "u1" "p1" =
      some (mkKibanaSession "u1" "p1") ∧
    (mkKibanaSession "u1" "p1").sid_cookie = none ∧
    1 ≤ (request (mkKibanaSession "u1" "p1") 3 c10Backend).loginCalls :=
  set_credentials_same_creds c10Session "u1" "p1" 3 c10Backend rfl rfl

/-- C8: when the optional filter argument is non-empty but fails to parse
as JSON, the aggregation query is built from the unchanged base time-range
query, identically to supplying no filter at all, and no error is
produced by the filter handling. -/
theorem aggregate_malformed_filter (agg_type time_range f : String)
    (customAgg : Option String) (parse : String → Option Json)
    (hf : f ≠ "") (hbad : parse f = none) :
    aggregate_base_query time_range (some f) parse =
      base_time_query time_range ∧
    aggregate_query_dsl agg_type time_range (some f) customAgg parse =
      aggregate_query_dsl agg_type time_range none customAgg parse := by
  have h1 : aggregate_base_query time_range (some f) parse =
      base_time_query time_range := by
    unfold aggregate_base_query
    simp [hf, hbad]
  have h2 : aggregate_base_query time_range none parse =
      base_time_query time_range := rfl
  refine ⟨h1, ?_⟩
  unfold aggregate_query_dsl
  rw [h1, h2]

/-- A parse oracle on which every string is a JSON decode error. -/
def parseNone : String → Option Json := fun _ => none

/-- C8 witness: a concrete malformed filter is silently dropped. -/
theorem aggregate_malformed_filter_witness :
    aggregate_base_query "now-1h" (some "oops") parseNone =
      base_time_query "now-1h" ∧
    aggregate_query_dsl "by_service" "now-1h" (some "oops") none
        parseNone =
      aggregate_query_dsl "by_service" "now-1h" none none parseNone :=
  aggregate_malformed_filter "by_service" "now-1h" "oops" none parseNone
    (by decide) rfl

/-- Key membership distributes over appending object bodies. -/
theorem hasKey_append (l1 l2 : List (String × Json)) (k : String) :
    hasKey (l1 ++ l2) k = (hasKey l1 k || hasKey l2 k) := by
  induction l1 with
  | nil => rfl
  | cons p rest ih =>
      obtain ⟨k0, v0⟩ := p
      by_cases hk : k0 = k <;> simp [hasKey, hk, ih]

/-- A key that is not present never has a bound value. -/
theorem lookupJ_none_of_hasKey_false (l : List (String × Json))
    (k : String) (h : hasKey l k = false) : lookupJ l k = none := by
  induction l with
  | nil => rfl
  | cons p rest ih =>
      obtain ⟨k0, v0⟩ := p
      by_cases hk : k0 = k
      · simp [hasKey, hk] at h
      · simp only [hasKey, hk, if_false, ite_false] at h
        simp [lookupJ, hk, ih (by simpa [hk] using h)]

/-- A present key has a bound value. -/
theorem lookupJ_some_of_hasKey (l : List (String × Json)) (k : String)
    (h : hasKey l k = true) : ∃ v, lookupJ l k = some v := by
  induction l with
  | nil => simp [hasKey] at h
  | cons p rest ih =>
      obtain ⟨k0, v0⟩ := p
      by_cases hk : k0 = k
      · exact ⟨v0, by simp [lookupJ, hk]⟩
      · obtain ⟨v, hv⟩ := ih (by simpa [hasKey, hk] using h)
        exact ⟨v, by simp [lookupJ, hk, hv]⟩

/-- Appending entries does not change the value of a key already
present. -/
theorem lookupJ_append_left (l1 l2 : List (String × Json)) (k : String)
    (h : hasKey l1 k = true) : lookupJ (l1 ++ l2) k = lookupJ l1 k := by
  induction l1 with
  | nil => simp [hasKey] at h
  | cons p rest ih =>
      obtain ⟨k0, v0⟩ := p
      by_cases hk : k0 = k
      · simp [lookupJ, hk]
      · simp [lookupJ, hk, ih (by simpa [hasKey, hk] using h)]

/-- Looking up an absent key continues in the appended tail. -/
theorem lookupJ_append_right (l1 l2 : List (String × Json)) (k : String)
    (h : hasKey l1 k = false) : lookupJ (l1 ++ l2) k = lookupJ l2 k := by
  induction l1 with
  | nil => rfl
  | cons p rest ih =>
      obtain ⟨k0, v0⟩ := p
      by_cases hk : k0 = k
      · simp [hasKey, hk] at h
      · simp [lookupJ, hk, ih (by simpa [hasKey, hk] using h)]

/-- C9: the body submitted by the log-search handler for a query that
parsed as a JSON object always binds `size` and `_source`: a value
already present in the parsed DSL is kept unchanged, an absent one is
filled from the `size` and `fields` arguments with their schema defaults
`20` and `defaultFields`. -/
theorem search_logs_body_size_source (parsed : List (String × Json))
    (sizeArg : Option Int) (fieldsArg : Option (List String)) :
    lookupJ (search_logs_body parsed sizeArg fieldsArg) "size" =
      some ((lookupJ parsed "size").getD (Json.num (sizeArg.getD 20))) ∧
    lookupJ (search_logs_body parsed sizeArg fieldsArg) "_source" =
      some ((lookupJ parsed "_source").getD
        (Json.arr ((fieldsArg.getD defaultFields).map Json.str))) := by
  unfold search_logs_body ensure_size_source
  cases hs : hasKey parsed "size" with
  | true =>
      obtain ⟨v, hv⟩ := lookupJ_some_of_hasKey parsed "size" hs
      cases h2 : hasKey parsed "_source" with
      | true =>
          obtain ⟨w, hw⟩ := lookupJ_some_of_hasKey parsed "_source" h2
          simp [hs, h2, hv, hw]
      | false =>
          simp [hs, h2, hv, lookupJ_append_left, lookupJ_append_right,
            lookupJ_none_of_hasKey_false, lookupJ]
  | false =>
      cases h2 : hasKey parsed "_source" with
      | true =>
          obtain ⟨w, hw⟩ := lookupJ_some_of_hasKey parsed "_source" h2
          simp [hs, h2, hw, hasKey_append, hasKey, lookupJ_append_left,
            lookupJ_append_right, lookupJ_none_of_hasKey_false, lookupJ]
      | false =>
          simp [hs, h2, hasKey_append, hasKey, lookupJ_append_left,
            lookupJ_append_right, lookupJ_none_of_hasKey_false, lookupJ]

end Kibana
